import Mathlib

/-!
Shallow embedding of the `shippy` Python client library (src/api.py and
src/shipapi.py), a thin wrapper over the Ship issue-tracking REST API.

Each client method is modelled as a function from the client's configuration
and the method's arguments to a value of type `M α`: given a network oracle
(a function from outbound requests to HTTP responses), it yields the ordered
list of requests the method issues together with the method's outcome, an
`Except Err α` (Python exceptions are modelled as `Except.error`).
-/

/-- A JSON value, as decoded from a response body or sent as a request body. -/
inductive Json where
  | null
  | bool (b : Bool)
  | num (n : Int)
  | str (s : String)
  | arr (elems : List Json)
  | obj (fields : List (String × Json))

/-- HTTP verbs used by the client. -/
inductive Verb where
  | GET
  | POST
  | PATCH
  | PUT
  | DELETE
deriving DecidableEq, Repr

/-- An outbound HTTP request: verb, full URL, query parameters, headers and
optional JSON body (`none` models `json=None`, i.e. no body). -/
structure Request where
  verb : Verb
  url : String
  params : List (String × String)
  headers : List (String × String)
  body : Option Json

/-- An HTTP response: status code and body. `body = none` models a body that
is not decodable as JSON (`.json()` raises in that case). -/
structure Resp where
  status : Nat
  body : Option Json

/-- The errors (Python exceptions) the client can raise. -/
inductive Err where
  | httpError (status : Nat)
  | jsonError
  | configError (msg : String)
  | nameError (msg : String)
  | typeError (msg : String)
  | keyError (key : String)
  | indexError

/-- The network oracle: what response the server gives to each request. -/
def Net : Type := Request → Resp

/-- The effect of one client-method call: the requests it sends, in order,
and its outcome. -/
def M (α : Type) : Type := Net → List Request × Except Err α

/-- Return a value, issuing no request. -/
def M.pure {α : Type} (a : α) : M α := fun _ => ([], Except.ok a)

/-- Sequence two effects; an error in the first short-circuits the second
(a raised Python exception propagates). -/
def M.bind {α β : Type} (x : M α) (f : α → M β) : M β := fun net =>
  match x net with
  | (reqs, Except.ok a) =>
    let out := f a net
    (reqs ++ out.fst, out.snd)
  | (reqs, Except.error e) => (reqs, Except.error e)

/-- Lift a pure fallible computation (no request issued). -/
def M.ofExcept {α : Type} (e : Except Err α) : M α := fun _ => ([], e)

/-- Raise an exception (no request issued). -/
def M.fail {α : Type} (e : Err) : M α := fun _ => ([], Except.error e)

/-- Issue one request and get the oracle's response. -/
def M.request (r : Request) : M Resp := fun net => ([r], Except.ok (net r))

/-- Models `requests.Response.raise_for_status`: raises `HTTPError` exactly
for status codes 400-599 (client and server errors). -/
def raiseForStatus (r : Resp) : Except Err Resp :=
  if 400 ≤ r.status ∧ r.status < 600 then Except.error (Err.httpError r.status)
  else Except.ok r

/-- Models `requests.Response.json()`: decode the body, raising if it is not
valid JSON. -/
def Resp.json (r : Resp) : Except Err Json :=
  match r.body with
  | some j => Except.ok j
  | none => Except.error Err.jsonError

/-- Models Python `%`-formatting of a template (over its character list) with
a tuple of (already stringified) arguments, supporting the `%s` and `%d`
conversions the source uses: a leftover argument raises `TypeError: not all
arguments converted during string formatting`, a missing one raises
`TypeError: not enough arguments for format string`. -/
def formatChars : List Char → List String → Except Err (List Char)
  | '%' :: 's' :: rest, a :: args =>
    Except.map (fun t => a.toList ++ t) (formatChars rest args)
  | '%' :: 'd' :: rest, a :: args =>
    Except.map (fun t => a.toList ++ t) (formatChars rest args)
  | '%' :: 's' :: _, [] => Except.error (Err.typeError "not enough arguments for format string")
  | '%' :: 'd' :: _, [] => Except.error (Err.typeError "not enough arguments for format string")
  | '%' :: _, _ => Except.error (Err.typeError "unsupported format character")
  | c :: rest, args => Except.map (fun t => c :: t) (formatChars rest args)
  | [], [] => Except.ok []
  | [], _ :: _ =>
    Except.error (Err.typeError "not all arguments converted during string formatting")

/-- Python `template % (arg1, ..., argk)` on strings. -/
def formatPct (template : String) (args : List String) : Except Err String :=
  Except.map String.mk (formatChars template.toList args)

/-- Models `_obj_id` from src/api.py (and the identical copy in
src/shipapi.py): a string is its own identifier, anything else is indexed
with `"identifier"` (a missing key raises `KeyError`, a non-indexable value
raises `TypeError`). -/
def _obj_id : Json → Except Err Json
  | Json.str s => Except.ok (Json.str s)
  | Json.obj fields =>
    match fields.lookup "identifier" with
    | some v => Except.ok v
    | none => Except.error (Err.keyError "identifier")
  | _ => Except.error (Err.typeError "object is not subscriptable")

/-- Python `str()` of a JSON scalar, as applied by `%s` interpolation. The
source only ever interpolates identifier and name fields, which are strings;
`str()` of containers is not modelled precisely. -/
def pyStr : Json → String
  | Json.str s => s
  | Json.num n => toString n
  | Json.bool true => "True"
  | Json.bool false => "False"
  | Json.null => "None"
  | Json.arr _ => "<list>"
  | Json.obj _ => "<dict>"

/-- Python `d[k]` on a JSON object (a missing key raises `KeyError`). -/
def dictGet (j : Json) (k : String) : Except Err Json :=
  match j with
  | Json.obj fields =>
    match fields.lookup k with
    | some v => Except.ok v
    | none => Except.error (Err.keyError k)
  | _ => Except.error (Err.typeError "object is not subscriptable")

/-- The client configuration held by `Api.__init__` in src/api.py. -/
structure Api where
  API_VERSION : String
  server : String
  dry_run : Bool
  token : String

/-- Models `Api.__init__` from src/api.py: store the token argument, or fall
back to the `SHIP_API_TOKEN` environment variable (modelled as the explicit
argument `env_SHIP_API_TOKEN`), raising when both are absent. -/
def Api.init (token : Option String) (dry_run : Bool) (server : String)
    (env_SHIP_API_TOKEN : Option String) : Except Err Api :=
  match token with
  | some t => Except.ok ⟨"20151105", server, dry_run, t⟩
  | none =>
    match env_SHIP_API_TOKEN with
    | some t => Except.ok ⟨"20151105", server, dry_run, t⟩
    | none =>
      Except.error (Err.configError "Cannot find SHIP_API_TOKEN in environment. We need this.")

/-- Models `Api._url`: `"%s/api/%s/%s" % (self.server, self.API_VERSION, endpoint)`
(this interpolation always succeeds, so it is written as concatenation). -/
def Api._url (a : Api) (endpoint : String) : String :=
  a.server ++ "/api/" ++ a.API_VERSION ++ "/" ++ endpoint

/-- Models `Api._headers`. -/
def Api._headers (a : Api) : List (String × String) :=
  [("Authorization", a.token)]

/-- Models `Api._post_headers`. -/
def Api._post_headers (a : Api) : List (String × String) :=
  [("Authorization", a.token), ("Content-Type", "application/json")]

/-- What `Api._post`/`_patch`/`_put` return: a real response, or the
`_DryRunRequest` stand-in (whose `json()` is `{}`). -/
inductive PostResult where
  | real (r : Resp)
  | dryRun

/-- `.json()` on a `_post`/`_patch`/`_put` result. -/
def PostResult.json : PostResult → Except Err Json
  | PostResult.real r => r.json
  | PostResult.dryRun => Except.ok (Json.obj [])

/-- Models `Api._post`. -/
def Api._post (a : Api) (endpoint : String) (json : Option Json) : M PostResult :=
  if a.dry_run then M.pure PostResult.dryRun
  else
    M.bind (M.request ⟨Verb.POST, a._url endpoint, [], a._post_headers, json⟩)
      (fun r => M.bind (M.ofExcept (raiseForStatus r)) (fun r2 => M.pure (PostResult.real r2)))

/-- Models `Api._patch`. -/
def Api._patch (a : Api) (endpoint : String) (json : Option Json) : M PostResult :=
  if a.dry_run then M.pure PostResult.dryRun
  else
    M.bind (M.request ⟨Verb.PATCH, a._url endpoint, [], a._post_headers, json⟩)
      (fun r => M.bind (M.ofExcept (raiseForStatus r)) (fun r2 => M.pure (PostResult.real r2)))

/-- Models `Api._put`. -/
def Api._put (a : Api) (endpoint : String) (json : Option Json) : M PostResult :=
  if a.dry_run then M.pure PostResult.dryRun
  else
    M.bind (M.request ⟨Verb.PUT, a._url endpoint, [], a._post_headers, json⟩)
      (fun r => M.bind (M.ofExcept (raiseForStatus r)) (fun r2 => M.pure (PostResult.real r2)))

/-- What `Api._delete` returns: `None` (its real branch has no `return`), or
the `_DryRunRequest` stand-in. Callers discard it either way. -/
inductive DeleteResult where
  | noneValue
  | dryRun

/-- Models `Api._delete` (note: it sends `_headers`, not `_post_headers`). -/
def Api._delete (a : Api) (endpoint : String) (json : Option Json) : M DeleteResult :=
  if a.dry_run then M.pure DeleteResult.dryRun
  else
    M.bind (M.request ⟨Verb.DELETE, a._url endpoint, [], a._headers, json⟩)
      (fun r => M.bind (M.ofExcept (raiseForStatus r)) (fun _ => M.pure DeleteResult.noneValue))

/-- Models `Api._get` (never consults `dry_run`). -/
def Api._get (a : Api) (endpoint : String) (params : List (String × String)) : M Resp :=
  M.bind (M.request ⟨Verb.GET, a._url endpoint, params, a._headers, none⟩)
    (fun r => M.ofExcept (raiseForStatus r))

/-- Models `Api.users`. -/
def Api.users (a : Api) (predicate : Option String) : M Json :=
  match predicate with
  | none => M.bind (a._get "users" []) (fun r => M.ofExcept r.json)
  | some p => M.bind (a._get "users/search" [("predicate", p)]) (fun r => M.ofExcept r.json)

/-- Models `Api.me`. -/
def Api.me (a : Api) : M Json :=
  a.users (some "identifier == $ApiUser")

/-- Models `Api.users_active`. -/
def Api.users_active (a : Api) : M Json :=
  a.users (some "inactive == NO")


/-- Models `Api.components`. -/
def Api.components (a : Api) (predicate : Option String) : M Json :=
  match predicate with
  | none => M.bind (a._get "components" []) (fun r => M.ofExcept r.json)
  | some p => M.bind (a._get "components/search" [("predicate", p)]) (fun r => M.ofExcept r.json)

/-- Models `Api.component_parent`: search components with predicate
`"ANY children.identifier = '%s'" % _obj_id(component)` and return the first
hit, or `None` when the result list is empty. (The search endpoint returns a
JSON array; a non-array body is modelled as a `TypeError`.) -/
def Api.component_parent (a : Api) (component : Json) : M (Option Json) :=
  M.bind (M.ofExcept (_obj_id component)) (fun oid =>
    M.bind (a.components (some ("ANY children.identifier = '" ++ pyStr oid ++ "'")))
      (fun list =>
        match list with
        | Json.arr (x :: _) => M.pure (some x)
        | Json.arr [] => M.pure none
        | _ => M.fail (Err.typeError "object is not a list")))

/-- Models `Api.component_children`: predicate
`"parent.identifier = '%s'" % _obj_id(component)`. -/
def Api.component_children (a : Api) (component : Json) : M Json :=
  M.bind (M.ofExcept (_obj_id component)) (fun oid =>
    a.components (some ("parent.identifier = '" ++ pyStr oid ++ "'")))

/-- Models `Api.classifications`. -/
def Api.classifications (a : Api) : M Json :=
  M.bind (a._get "classifications" []) (fun r => M.ofExcept r.json)

/-- Models `Api.milestones`. -/
def Api.milestones (a : Api) (predicate : Option String) : M Json :=
  match predicate with
  | none => M.bind (a._get "milestones" []) (fun r => M.ofExcept r.json)
  | some p => M.bind (a._get "milestones/search" [("predicate", p)]) (fun r => M.ofExcept r.json)

/-- The triple-quoted predicate template of the `within_component` branch of
`milestones_active`/`active_milestones`, byte for byte (note the trailing
spaces and that it contains exactly one `%s` placeholder). -/
def milestonesActiveScopedTemplate : String :=
  "\n                (StartDate == nil || StartDate < NOW()) \n                AND \n                (EndDate == nil || EndDate > NOW()) \n                AND\n                (component.identifier == nil OR %s BEGINSWITH component.fullName)\n            "

/-- The triple-quoted predicate of the no-component branch of
`milestones_active`/`active_milestones`, byte for byte. -/
def milestonesActivePredicate : String :=
  "\n                (StartDate == nil || StartDate < NOW()) \n                AND \n                (EndDate == nil || EndDate > NOW())\n            "

/-- Models `Api.milestones_active`: a `str` argument is first resolved by a
components search (`"identifier = %s"`, taking element 0 of the result);
then the scoped template is `%`-formatted with the two-tuple
`(_obj_id(within_component), within_component["fullName"])`; with no
argument, the plain date-range predicate is used. Python evaluates the tuple
elements first and then applies `%`. -/
def Api.milestones_active (a : Api) (within_component : Option Json) : M Json :=
  match within_component with
  | none => a.milestones (some milestonesActivePredicate)
  | some wc0 =>
    M.bind
      (match wc0 with
       | Json.str s =>
         M.bind (a.components (some ("identifier = " ++ s))) (fun l =>
           match l with
           | Json.arr (x :: _) => M.pure x
           | Json.arr [] => M.fail Err.indexError
           | _ => M.fail (Err.typeError "object is not a list"))
       | wc => M.pure wc)
      (fun wc =>
        M.bind (M.ofExcept (_obj_id wc)) (fun oid =>
          M.bind (M.ofExcept (dictGet wc "fullName")) (fun fn =>
            M.bind (M.ofExcept (formatPct milestonesActiveScopedTemplate [pyStr oid, pyStr fn]))
              (fun predicate => a.milestones (some predicate)))))

/-- Models `Api.priorities`. -/
def Api.priorities (a : Api) : M Json :=
  M.bind (a._get "priorities" []) (fun r => M.ofExcept r.json)

/-- Models `Api.states`. -/
def Api.states (a : Api) (predicate : Option String) : M Json :=
  match predicate with
  | none => M.bind (a._get "states" []) (fun r => M.ofExcept r.json)
  | some p => M.bind (a._get "states/search" [("predicate", p)]) (fun r => M.ofExcept r.json)

/-- Models `Api.states_initial`. -/
def Api.states_initial (a : Api) : M Json :=
  a.states (some "Initial = YES")

/-- Models `Api.state_initial`: element 0 of `states_initial()` (an empty
result raises `IndexError`). -/
def Api.state_initial (a : Api) : M Json :=
  M.bind a.states_initial (fun l =>
    match l with
    | Json.arr (x :: _) => M.pure x
    | Json.arr [] => M.fail Err.indexError
    | _ => M.fail (Err.typeError "object is not a list"))

/-- Models `Api.state_transitions`: predicate
`"ANY PreviousStates.identifier = '%s'" % _obj_id(state)`. -/
def Api.state_transitions (a : Api) (state : Json) : M Json :=
  M.bind (M.ofExcept (_obj_id state)) (fun oid =>
    a.states (some ("ANY PreviousStates.identifier = '" ++ pyStr oid ++ "'")))

/-- Models `Api.problem`: GET `"problems/%d" % identifier`. -/
def Api.problem (a : Api) (identifier : Int) : M Json :=
  M.bind (a._get ("problems/" ++ toString identifier) []) (fun r => M.ofExcept r.json)

/-- Models `Api.problem_search`: requires `predicate` or `savedQueryURL`;
with neither, `raise Error(...)` refers to an undefined name, so a
`NameError` is raised before any request is issued. -/
def Api.problem_search (a : Api) (predicate : Option String) (savedQueryURL : Option String) :
    M Json :=
  match predicate with
  | some p => M.bind (a._get "problems/search" [("predicate", p)]) (fun r => M.ofExcept r.json)
  | none =>
    match savedQueryURL with
    | some q => M.bind (a._get "problems/search" [("savedQuery", q)]) (fun r => M.ofExcept r.json)
    | none => M.fail (Err.nameError "name 'Error' is not defined")

/-- Models `Api.problem_create`. -/
def Api.problem_create (a : Api) (problem : Json) : M Json :=
  M.bind (a._post "problems" (some problem)) (fun r => M.ofExcept r.json)

/-- Models `Api.problem_update`: PATCH `"problems/%d" % identifier`. -/
def Api.problem_update (a : Api) (identifier : Int) (updates : Json) : M Json :=
  M.bind (a._patch ("problems/" ++ toString identifier) (some updates)) (fun r => M.ofExcept r.json)

/-- The characters `urllib`'s `quote` never encodes: ASCII letters, digits
and `_.-~`. -/
def alwaysSafe (c : Char) : Bool :=
  c.isAlpha || c.isDigit || c = '_' || c = '.' || c = '-' || c = '~'

/-- Uppercase hexadecimal digit of `n < 16`. -/
def hexDigit (n : Nat) : Char :=
  if n < 10 then Char.ofNat (48 + n) else Char.ofNat (55 + n)

/-- The UTF-8 encoding of one character, as byte values. -/
def utf8Bytes (c : Char) : List Nat :=
  if c.toNat < 128 then [c.toNat]
  else if c.toNat < 2048 then [192 + c.toNat / 64, 128 + c.toNat % 64]
  else if c.toNat < 65536 then
    [224 + c.toNat / 4096, 128 + c.toNat / 64 % 64, 128 + c.toNat % 64]
  else
    [240 + c.toNat / 262144, 128 + c.toNat / 4096 % 64, 128 + c.toNat / 64 % 64,
     128 + c.toNat % 64]

/-- The percent-escape `%XX` (uppercase) of one byte. -/
def pctHex (b : Nat) : List Char :=
  ['%', hexDigit (b / 16), hexDigit (b % 16)]

/-- One character's contribution to `quote(s, safe="")`: kept verbatim when
always-safe, otherwise each UTF-8 byte becomes a percent-escape. -/
def quoteChar (c : Char) : List Char :=
  if alwaysSafe c then [c] else ((utf8Bytes c).map pctHex).flatten

/-- Models `quote(s, safe="")` from `urllib`, as used for keyword URL
segments: percent-encode every character outside the always-safe set. -/
def quote (s : String) : String :=
  String.mk ((s.toList.map quoteChar).flatten)

/-- Models `Api.problem_keyword_set`: PUT to
`"problems/%d/keywords/%s" % (identifier, quote(keyword, safe=""))` with the
optional value as JSON body (`None` sends no body). -/
def Api.problem_keyword_set (a : Api) (identifier : Int) (keyword : String)
    (value : Option Json) : M Unit :=
  M.bind (a._put ("problems/" ++ toString identifier ++ "/keywords/" ++ quote keyword) value)
    (fun _ => M.pure ())

/-- Models `Api.problem_keyword_delete`: DELETE to the same per-keyword
sub-path. -/
def Api.problem_keyword_delete (a : Api) (identifier : Int) (keyword : String) : M Unit :=
  M.bind (a._delete ("problems/" ++ toString identifier ++ "/keywords/" ++ quote keyword) none)
    (fun _ => M.pure ())

/-- Models `Api.problem_relationships`. -/
def Api.problem_relationships (a : Api) (identifier : Int) : M Json :=
  M.bind (a._get ("problems/" ++ toString identifier ++ "/relationships") [])
    (fun r => M.ofExcept r.json)

/-- Models `Api.problem_relationship_add`: PUT
`{"type": relation_type, "problemIdentifier": dst_identifier}` to
`"problems/%d/relationships" % src_identifier`. -/
def Api.problem_relationship_add (a : Api) (src_identifier : Int) (relation_type : String)
    (dst_identifier : Int) : M Unit :=
  M.bind (a._put ("problems/" ++ toString src_identifier ++ "/relationships")
      (some (Json.obj [("type", Json.str relation_type),
                       ("problemIdentifier", Json.num dst_identifier)])))
    (fun _ => M.pure ())

/-- Models `Api.problem_relationship_delete`. -/
def Api.problem_relationship_delete (a : Api) (src_identifier : Int) (relation_dict : Json) :
    M Unit :=
  M.bind (a._delete ("problems/" ++ toString src_identifier ++ "/relationships")
      (some relation_dict))
    (fun _ => M.pure ())

/-- Models `Api.problem_comments`. -/
def Api.problem_comments (a : Api) (identifier : Int) : M Json :=
  M.bind (a._get ("problems/" ++ toString identifier ++ "/comments") [])
    (fun r => M.ofExcept r.json)

/-- Models `Api.problem_comments_append`: POST `{"text": comment}` with
`"html"` added when given. -/
def Api.problem_comments_append (a : Api) (identifier : Int) (comment : String)
    (html : Option String) : M Unit :=
  let params := match html with
    | none => Json.obj [("text", Json.str comment)]
    | some h => Json.obj [("text", Json.str comment), ("html", Json.str h)]
  M.bind (a._post ("problems/" ++ toString identifier ++ "/comments") (some params))
    (fun _ => M.pure ())

/-- Models `Api.problem_watchers`. -/
def Api.problem_watchers (a : Api) (identifier : Int) : M Json :=
  M.bind (a._get ("problems/" ++ toString identifier ++ "/watchers") [])
    (fun r => M.ofExcept r.json)

/-- The params normalization of `Api.problem_watchers_add`: a string with an
`@` becomes an email mapping, another string an identifier mapping, and a
non-string is passed through. -/
def watcherParams (user : Json) : Json :=
  match user with
  | Json.str s =>
    if s.toList.contains '@' then Json.obj [("email", Json.str s)]
    else Json.obj [("identifier", Json.str s)]
  | u => u

/-- Models `Api.problem_watchers_add`: PUT the normalized user mapping to
`"problems/%d/watchers" % identifier`. -/
def Api.problem_watchers_add (a : Api) (identifier : Int) (user : Json) : M Unit :=
  M.bind (a._put ("problems/" ++ toString identifier ++ "/watchers") (some (watcherParams user)))
    (fun _ => M.pure ())

/-- The `RelationType*` constants of src/api.py. -/
def RelationTypeRelatedTo : String := "RelatedTo"

def RelationTypeParentOf : String := "ParentOf"

def RelationTypeChildOf : String := "ChildOf"

def RelationTypeOriginalOf : String := "OriginalOf"

def RelationTypeDuplicateOf : String := "DuplicateOf"

def RelationTypeCauseOf : String := "CauseOf"

def RelationTypeCausedBy : String := "CausedBy"

def RelationTypeBlockerOf : String := "BlockerOf"

def RelationTypeBlockedBy : String := "BlockedBy"

def RelationTypeClonedTo : String := "ClonedTo"

def RelationTypeClonedFrom : String := "ClonedFrom"

/-- The client configuration held by class `api` in src/shipapi.py (an older
near-duplicate of `Api` with no dry-run support). -/
structure ShipApi where
  API_VERSION : String
  server : String
  token : String

/-- Models `api.__init__` from src/shipapi.py. Note: its missing-token branch
executes `raise Error(...)` where `Error` is an undefined name, so the error
actually raised is a `NameError` (still an error at construction). -/
def ShipApi.init (token : Option String) (server : String)
    (env_SHIP_API_TOKEN : Option String) : Except Err ShipApi :=
  match token with
  | some t => Except.ok ⟨"20151105", server, t⟩
  | none =>
    match env_SHIP_API_TOKEN with
    | some t => Except.ok ⟨"20151105", server, t⟩
    | none => Except.error (Err.nameError "name 'Error' is not defined")

/-- Models `api.url`: `"%s/api/%s/%s" % (self.server, self.API_VERSION, endpoint)`. -/
def ShipApi.url (a : ShipApi) (endpoint : String) : String :=
  a.server ++ "/api/" ++ a.API_VERSION ++ "/" ++ endpoint

/-- Models `api.headers`. -/
def ShipApi.headers (a : ShipApi) : List (String × String) :=
  [("Authorization", a.token)]

/-- Models `api.post_headers`. -/
def ShipApi.post_headers (a : ShipApi) : List (String × String) :=
  [("Authorization", a.token), ("Content-Type", "application/json")]

/-- The `r = requests.get(...); r.raise_for_status(); return r.json()`
sequence that every read-only method of class `api` inlines. -/
def ShipApi.getJson (a : ShipApi) (endpoint : String) (params : List (String × String)) :
    M Json :=
  M.bind (M.request ⟨Verb.GET, a.url endpoint, params, a.headers, none⟩)
    (fun r => M.bind (M.ofExcept (raiseForStatus r)) (fun r2 => M.ofExcept r2.json))

/-- Models `api.users`. -/
def ShipApi.users (a : ShipApi) (predicate : Option String) : M Json :=
  match predicate with
  | none => a.getJson "users" []
  | some p => a.getJson "users/search" [("predicate", p)]

/-- Models `api.me`. -/
def ShipApi.me (a : ShipApi) : M Json :=
  a.users (some "identifier == $ApiUser")

/-- Models `api.active_users`. -/
def ShipApi.active_users (a : ShipApi) : M Json :=
  a.users (some "inactive == NO")

/-- Models `api.components`. -/
def ShipApi.components (a : ShipApi) (predicate : Option String) : M Json :=
  match predicate with
  | none => a.getJson "components" []
  | some p => a.getJson "components/search" [("predicate", p)]

/-- Models `api.component_parent`. -/
def ShipApi.component_parent (a : ShipApi) (component : Json) : M (Option Json) :=
  M.bind (M.ofExcept (_obj_id component)) (fun oid =>
    M.bind (a.components (some ("ANY children.identifier = '" ++ pyStr oid ++ "'")))
      (fun list =>
        match list with
        | Json.arr (x :: _) => M.pure (some x)
        | Json.arr [] => M.pure none
        | _ => M.fail (Err.typeError "object is not a list")))

/-- Models `api.component_children`. -/
def ShipApi.component_children (a : ShipApi) (component : Json) : M Json :=
  M.bind (M.ofExcept (_obj_id component)) (fun oid =>
    a.components (some ("parent.identifier = '" ++ pyStr oid ++ "'")))

/-- Models `api.classifications`. -/
def ShipApi.classifications (a : ShipApi) : M Json :=
  a.getJson "classifications" []

/-- Models `api.milestones`. -/
def ShipApi.milestones (a : ShipApi) (predicate : Option String) : M Json :=
  match predicate with
  | none => a.getJson "milestones" []
  | some p => a.getJson "milestones/search" [("predicate", p)]

/-- Models `api.active_milestones`: identical to `Api.milestones_active`,
including the one-placeholder template formatted with a two-tuple. -/
def ShipApi.active_milestones (a : ShipApi) (within_component : Option Json) : M Json :=
  match within_component with
  | none => a.milestones (some milestonesActivePredicate)
  | some wc0 =>
    M.bind
      (match wc0 with
       | Json.str s =>
         M.bind (a.components (some ("identifier = " ++ s))) (fun l =>
           match l with
           | Json.arr (x :: _) => M.pure x
           | Json.arr [] => M.fail Err.indexError
           | _ => M.fail (Err.typeError "object is not a list"))
       | wc => M.pure wc)
      (fun wc =>
        M.bind (M.ofExcept (_obj_id wc)) (fun oid =>
          M.bind (M.ofExcept (dictGet wc "fullName")) (fun fn =>
            M.bind (M.ofExcept (formatPct milestonesActiveScopedTemplate [pyStr oid, pyStr fn]))
              (fun predicate => a.milestones (some predicate)))))

/-- Models `api.priorities`. -/
def ShipApi.priorities (a : ShipApi) : M Json :=
  a.getJson "priorities" []

/-- Models `api.states`. -/
def ShipApi.states (a : ShipApi) (predicate : Option String) : M Json :=
  match predicate with
  | none => a.getJson "states" []
  | some p => a.getJson "states/search" [("predicate", p)]

/-- Models `api.initial_states`. -/
def ShipApi.initial_states (a : ShipApi) : M Json :=
  a.states (some "Initial = YES")

/-- Models `api.initial_state`: element 0 of `initial_states()`. -/
def ShipApi.initial_state (a : ShipApi) : M Json :=
  M.bind a.initial_states (fun l =>
    match l with
    | Json.arr (x :: _) => M.pure x
    | Json.arr [] => M.fail Err.indexError
    | _ => M.fail (Err.typeError "object is not a list"))

/-- Models `api.state_transitions`: predicate
`"ANY PreviousStates.identifier = '%s'" % _obj_id(state)`. -/
def ShipApi.state_transitions (a : ShipApi) (state : Json) : M Json :=
  M.bind (M.ofExcept (_obj_id state)) (fun oid =>
    a.states (some ("ANY PreviousStates.identifier = '" ++ pyStr oid ++ "'")))

/-- Models `api.problem`: GET `"problems/%d" % identifier`. -/
def ShipApi.problem (a : ShipApi) (identifier : Int) : M Json :=
  a.getJson ("problems/" ++ toString identifier) []

/-- Models `api.search`: like `Api.problem_search`, with the same undefined
`Error` name in the no-argument branch. -/
def ShipApi.search (a : ShipApi) (predicate : Option String) (savedQueryURL : Option String) :
    M Json :=
  match predicate with
  | some p => a.getJson "problems/search" [("predicate", p)]
  | none =>
    match savedQueryURL with
    | some q => a.getJson "problems/search" [("savedQuery", q)]
    | none => M.fail (Err.nameError "name 'Error' is not defined")

/-- Models `api.create_problem`: POST the problem and return the decoded
response. -/
def ShipApi.create_problem (a : ShipApi) (problem : Json) : M Json :=
  M.bind (M.request ⟨Verb.POST, a.url "problems", [], a.post_headers, some problem⟩)
    (fun r => M.bind (M.ofExcept (raiseForStatus r)) (fun r2 => M.ofExcept r2.json))

/-- Whether an outcome is a raised exception. -/
def isErr {α : Type} : Except Err α → Bool
  | Except.error _ => true
  | Except.ok _ => false

theorem M.bind_fst {α β : Type} (x : M α) (f : α → M β) (net : Net) :
    ((M.bind x f) net).fst =
      (x net).fst ++ (match (x net).snd with
        | Except.ok a => (f a net).fst
        | Except.error _ => []) := by
  unfold M.bind
  rcases hx : x net with ⟨reqs, r⟩
  cases r <;> simp [hx]

theorem M.bind_snd {α β : Type} (x : M α) (f : α → M β) (net : Net) :
    ((M.bind x f) net).snd =
      (match (x net).snd with
        | Except.ok a => (f a net).snd
        | Except.error e => Except.error e) := by
  unfold M.bind
  rcases hx : x net with ⟨reqs, r⟩
  cases r <;> simp [hx]

theorem M.bind_fst_of_nil {α β : Type} (x : M α) (f : α → M β) (net : Net)
    (hf : ∀ a, (f a net).fst = []) : ((M.bind x f) net).fst = (x net).fst := by
  rw [M.bind_fst]
  cases hx : (x net).snd <;> simp [hf]

theorem M.bind_request_fst {α : Type} (req : Request) (k : Resp → M α) (net : Net) :
    ((M.bind (M.request req) k) net).fst = req :: (k (net req) net).fst := rfl

theorem M.bind_request_snd {α : Type} (req : Request) (k : Resp → M α) (net : Net) :
    ((M.bind (M.request req) k) net).snd = (k (net req) net).snd := rfl

theorem fst_rfs_cont {α : Type} (r : Resp) (k : Resp → M α) (net : Net)
    (hk : ∀ r2, (k r2 net).fst = []) :
    ((M.bind (M.ofExcept (raiseForStatus r)) k) net).fst = [] := by
  rw [M.bind_fst]
  simp only [M.ofExcept]
  cases raiseForStatus r <;> simp [hk]

/-- The single-request shape shared by `_get`, `_post`, `_patch`, `_put`,
`_delete` (with `dry_run` off) and the inlined request code of class `api`:
it issues exactly its one request. -/
theorem fst_verbReq {α : Type} (req : Request) (k : Resp → M α) (net : Net)
    (hk : ∀ r2, (k r2 net).fst = []) :
    ((M.bind (M.request req) (fun r => M.bind (M.ofExcept (raiseForStatus r)) k)) net).fst =
      [req] := by
  rw [M.bind_request_fst, fst_rfs_cont _ _ _ hk]

theorem Api.get_fst (a : Api) (ep : String) (ps : List (String × String)) (net : Net) :
    (a._get ep ps net).fst = [⟨Verb.GET, a._url ep, ps, a._headers, none⟩] := rfl

theorem Api.get_snd (a : Api) (ep : String) (ps : List (String × String)) (net : Net) :
    (a._get ep ps net).snd =
      raiseForStatus (net ⟨Verb.GET, a._url ep, ps, a._headers, none⟩) := rfl

theorem ShipApi.getJson_fst (a : ShipApi) (ep : String) (ps : List (String × String))
    (net : Net) :
    (a.getJson ep ps net).fst = [⟨Verb.GET, a.url ep, ps, a.headers, none⟩] :=
  fst_verbReq _ _ net (fun _ => rfl)

/-- The `self._get(...).json()` composition every read-only method of `Api`
uses issues exactly the one GET request. -/
theorem Api.get_json_fst (a : Api) (ep : String) (ps : List (String × String)) (net : Net) :
    ((M.bind (a._get ep ps) (fun r => M.ofExcept r.json)) net).fst =
      [⟨Verb.GET, a._url ep, ps, a._headers, none⟩] :=
  (M.bind_fst_of_nil _ _ net (fun _ => rfl)).trans (Api.get_fst a ep ps net)

theorem raiseForStatus_err (r : Resp) (h : 400 ≤ r.status ∧ r.status < 600) :
    raiseForStatus r = Except.error (Err.httpError r.status) := by
  simp [raiseForStatus, h]

theorem isErr_bind {α β : Type} (x : M α) (f : α → M β) (net : Net)
    (h : isErr (x net).snd = true) : isErr ((M.bind x f) net).snd = true := by
  rw [M.bind_snd]
  cases hx : (x net).snd with
  | ok a => rw [hx] at h; simp [isErr] at h
  | error e => simp [isErr]

theorem isErr_bind2 {α β : Type} (x : M α) (f : α → M β) (net : Net)
    (h : ∀ a, isErr (f a net).snd = true) : isErr ((M.bind x f) net).snd = true := by
  rw [M.bind_snd]
  cases hx : (x net).snd with
  | ok a => exact h a
  | error e => simp [isErr]

/-- Any continuation of a failed `raise_for_status` fails. -/
theorem isErr_rfs_cont {α : Type} (net : Net)
    (h : ∀ req, 400 ≤ (net req).status ∧ (net req).status < 600) (req : Request)
    (k : Resp → M α) :
    isErr ((M.bind (M.ofExcept (raiseForStatus (net req))) k) net).snd = true := by
  apply isErr_bind
  show isErr (raiseForStatus (net req)) = true
  rw [raiseForStatus_err _ (h req)]
  rfl

theorem isErr_get (a : Api) (ep : String) (ps : List (String × String)) (net : Net)
    (h : ∀ req, 400 ≤ (net req).status ∧ (net req).status < 600) :
    isErr (a._get ep ps net).snd = true := by
  rw [Api.get_snd, raiseForStatus_err _ (h _)]
  rfl

theorem isErr_getJson (a : ShipApi) (ep : String) (ps : List (String × String)) (net : Net)
    (h : ∀ req, 400 ≤ (net req).status ∧ (net req).status < 600) :
    isErr (a.getJson ep ps net).snd = true :=
  isErr_rfs_cont net h ⟨Verb.GET, a.url ep, ps, a.headers, none⟩ _

theorem isErr_post (v s tok ep : String) (js : Option Json) (net : Net)
    (h : ∀ req, 400 ≤ (net req).status ∧ (net req).status < 600) :
    isErr (((Api.mk v s false tok)._post ep js) net).snd = true :=
  isErr_rfs_cont net h ⟨Verb.POST, (Api.mk v s false tok)._url ep, [],
    (Api.mk v s false tok)._post_headers, js⟩ _

theorem isErr_patch (v s tok ep : String) (js : Option Json) (net : Net)
    (h : ∀ req, 400 ≤ (net req).status ∧ (net req).status < 600) :
    isErr (((Api.mk v s false tok)._patch ep js) net).snd = true :=
  isErr_rfs_cont net h ⟨Verb.PATCH, (Api.mk v s false tok)._url ep, [],
    (Api.mk v s false tok)._post_headers, js⟩ _

theorem isErr_put (v s tok ep : String) (js : Option Json) (net : Net)
    (h : ∀ req, 400 ≤ (net req).status ∧ (net req).status < 600) :
    isErr (((Api.mk v s false tok)._put ep js) net).snd = true :=
  isErr_rfs_cont net h ⟨Verb.PUT, (Api.mk v s false tok)._url ep, [],
    (Api.mk v s false tok)._post_headers, js⟩ _

theorem isErr_delete (v s tok ep : String) (js : Option Json) (net : Net)
    (h : ∀ req, 400 ≤ (net req).status ∧ (net req).status < 600) :
    isErr (((Api.mk v s false tok)._delete ep js) net).snd = true :=
  isErr_rfs_cont net h ⟨Verb.DELETE, (Api.mk v s false tok)._url ep, [],
    (Api.mk v s false tok)._headers, js⟩ _

theorem put_fst (v s tok ep : String) (body : Option Json) (net : Net) :
    (((Api.mk v s false tok)._put ep body) net).fst =
      [⟨Verb.PUT, s ++ "/api/" ++ v ++ "/" ++ ep, [],
        [("Authorization", tok), ("Content-Type", "application/json")], body⟩] :=
  fst_verbReq _ _ net (fun _ => rfl)

theorem delete_fst (v s tok ep : String) (body : Option Json) (net : Net) :
    (((Api.mk v s false tok)._delete ep body) net).fst =
      [⟨Verb.DELETE, s ++ "/api/" ++ v ++ "/" ++ ep, [], [("Authorization", tok)], body⟩] :=
  fst_verbReq _ _ net (fun _ => rfl)

/-- A network oracle answering every request with 200 and an empty JSON array. -/
def net200 : Net := fun _ => ⟨200, some (Json.arr [])⟩

/-- A network oracle answering every request with 500 and no decodable body. -/
def net500 : Net := fun _ => ⟨500, none⟩

/-- A network oracle answering every request with 304 (a non-2xx status that
`raise_for_status` does not treat as an error) and no body. -/
def net304 : Net := fun _ => ⟨304, none⟩

/-- C4: constructing the client with no token argument and no SHIP_API_TOKEN
environment variable fails (a configuration error in `Api`; in class `api`
the intended configuration error is raised through the undefined name
`Error`, still an error at construction); a token argument or the
environment variable makes construction succeed with that token stored, and
the stored token is what every request's Authorization header carries. -/
theorem C4_construction_token (dr : Bool) (srv : String) :
    (Api.init none dr srv none =
      Except.error (Err.configError "Cannot find SHIP_API_TOKEN in environment. We need this.")) ∧
    (∀ t env, Api.init (some t) dr srv env = Except.ok ⟨"20151105", srv, dr, t⟩) ∧
    (∀ e, Api.init none dr srv (some e) = Except.ok ⟨"20151105", srv, dr, e⟩) ∧
    (∀ a : Api, a._headers = [("Authorization", a.token)]) ∧
    (∀ a : Api, a._post_headers = [("Authorization", a.token), ("Content-Type", "application/json")]) ∧
    (∀ (a : Api) (net : Net), (a.users none net).fst.map Request.headers = [[("Authorization", a.token)]]) ∧
    (ShipApi.init none srv none = Except.error (Err.nameError "name 'Error' is not defined")) ∧
    (∀ t env, ShipApi.init (some t) srv env = Except.ok ⟨"20151105", srv, t⟩) ∧
    (∀ e, ShipApi.init none srv (some e) = Except.ok ⟨"20151105", srv, e⟩) ∧
    (∀ b : ShipApi, b.headers = [("Authorization", b.token)]) ∧
    (∀ (b : ShipApi) (net : Net), (b.users none net).fst.map Request.headers = [[("Authorization", b.token)]]) := by
  refine ⟨rfl, fun t env => rfl, fun e => rfl, fun a => rfl, fun a => rfl, fun a net => ?_,
    rfl, fun t env => rfl, fun e => rfl, fun b => rfl, fun b net => ?_⟩
  · rw [show (a.users none net).fst = [⟨Verb.GET, a._url "users", [], a._headers, none⟩] from
      (M.bind_fst_of_nil _ _ net (fun _ => rfl)).trans (Api.get_fst a "users" [] net)]
    rfl
  · rw [show (b.users none net).fst = [⟨Verb.GET, b.url "users", [], b.headers, none⟩] from
      ShipApi.getJson_fst b "users" [] net]
    rfl

/-- C6: the problem search of both classes raises before issuing any request
when neither `predicate` nor `savedQueryURL` is given (through the undefined
name `Error`, so a `NameError`), and with exactly one of them it issues one
GET to problems/search carrying only that query parameter. -/
theorem C6_problem_search_params (a : Api) (b : ShipApi) (net : Net) :
    (a.problem_search none none net =
      ([], Except.error (Err.nameError "name 'Error' is not defined"))) ∧
    (∀ p, (a.problem_search (some p) none net).fst =
      [⟨Verb.GET, a.server ++ "/api/" ++ a.API_VERSION ++ "/" ++ "problems/search",
        [("predicate", p)], [("Authorization", a.token)], none⟩]) ∧
    (∀ q, (a.problem_search none (some q) net).fst =
      [⟨Verb.GET, a.server ++ "/api/" ++ a.API_VERSION ++ "/" ++ "problems/search",
        [("savedQuery", q)], [("Authorization", a.token)], none⟩]) ∧
    (b.search none none net =
      ([], Except.error (Err.nameError "name 'Error' is not defined"))) ∧
    (∀ p, (b.search (some p) none net).fst =
      [⟨Verb.GET, b.server ++ "/api/" ++ b.API_VERSION ++ "/" ++ "problems/search",
        [("predicate", p)], [("Authorization", b.token)], none⟩]) ∧
    (∀ q, (b.search none (some q) net).fst =
      [⟨Verb.GET, b.server ++ "/api/" ++ b.API_VERSION ++ "/" ++ "problems/search",
        [("savedQuery", q)], [("Authorization", b.token)], none⟩]) :=
  ⟨rfl,
   fun p => (M.bind_fst_of_nil _ _ net (fun _ => rfl)).trans
     (Api.get_fst a "problems/search" [("predicate", p)] net),
   fun q => (M.bind_fst_of_nil _ _ net (fun _ => rfl)).trans
     (Api.get_fst a "problems/search" [("savedQuery", q)] net),
   rfl,
   fun p => ShipApi.getJson_fst b "problems/search" [("predicate", p)] net,
   fun q => ShipApi.getJson_fst b "problems/search" [("savedQuery", q)] net⟩

/-- C7: `problem_relationship_add(src, t, dst)` issues exactly one PUT to
problems/src/relationships whose JSON body is the mapping
`{"type": t, "problemIdentifier": dst}`; in particular for (1, BlockedBy, 2). -/
theorem C7_relationship_add_put (v s tok : String) (src dst : Int) (t : String) (net : Net) :
    ((((Api.mk v s false tok).problem_relationship_add src t dst) net).fst =
      [⟨Verb.PUT, s ++ "/api/" ++ v ++ "/" ++ ("problems/" ++ toString src ++ "/relationships"),
        [], [("Authorization", tok), ("Content-Type", "application/json")],
        some (Json.obj [("type", Json.str t), ("problemIdentifier", Json.num dst)])⟩]) ∧
    ((((Api.mk v s false tok).problem_relationship_add 1 "BlockedBy" 2) net).fst =
      [⟨Verb.PUT, s ++ "/api/" ++ v ++ "/" ++ "problems/1/relationships",
        [], [("Authorization", tok), ("Content-Type", "application/json")],
        some (Json.obj [("type", Json.str "BlockedBy"), ("problemIdentifier", Json.num 2)])⟩]) :=
  ⟨(M.bind_fst_of_nil _ _ net (fun _ => rfl)).trans (put_fst v s tok _ _ net),
   (M.bind_fst_of_nil _ _ net (fun _ => rfl)).trans (put_fst v s tok _ _ net)⟩

/-- C9: `state_transitions(S)`, for S a string identifier or a mapping whose
identifier field is the string i, issues one states search whose predicate is
exactly `ANY PreviousStates.identifier = 'i'` (in both classes). -/
theorem C9_state_transitions_predicate (a : Api) (b : ShipApi) (net : Net) (i : String) :
    ((a.state_transitions (Json.str i) net).fst =
      [⟨Verb.GET, a.server ++ "/api/" ++ a.API_VERSION ++ "/" ++ "states/search",
        [("predicate", "ANY PreviousStates.identifier = '" ++ i ++ "'")],
        [("Authorization", a.token)], none⟩]) ∧
    (∀ fields : List (String × Json), fields.lookup "identifier" = some (Json.str i) →
      (a.state_transitions (Json.obj fields) net).fst =
        [⟨Verb.GET, a.server ++ "/api/" ++ a.API_VERSION ++ "/" ++ "states/search",
          [("predicate", "ANY PreviousStates.identifier = '" ++ i ++ "'")],
          [("Authorization", a.token)], none⟩]) ∧
    ((b.state_transitions (Json.str i) net).fst =
      [⟨Verb.GET, b.server ++ "/api/" ++ b.API_VERSION ++ "/" ++ "states/search",
        [("predicate", "ANY PreviousStates.identifier = '" ++ i ++ "'")],
        [("Authorization", b.token)], none⟩]) ∧
    (∀ fields : List (String × Json), fields.lookup "identifier" = some (Json.str i) →
      (b.state_transitions (Json.obj fields) net).fst =
        [⟨Verb.GET, b.server ++ "/api/" ++ b.API_VERSION ++ "/" ++ "states/search",
          [("predicate", "ANY PreviousStates.identifier = '" ++ i ++ "'")],
          [("Authorization", b.token)], none⟩]) := by
  refine ⟨Api.get_json_fst a "states/search"
      [("predicate", "ANY PreviousStates.identifier = '" ++ i ++ "'")] net,
    fun fields h => ?_,
    ShipApi.getJson_fst b "states/search"
      [("predicate", "ANY PreviousStates.identifier = '" ++ i ++ "'")] net,
    fun fields h => ?_⟩
  · have hid : _obj_id (Json.obj fields) = Except.ok (Json.str i) := by
      simp [_obj_id, h]
    simp only [Api.state_transitions]
    rw [hid]
    exact Api.get_json_fst a "states/search"
      [("predicate", "ANY PreviousStates.identifier = '" ++ i ++ "'")] net
  · have hid : _obj_id (Json.obj fields) = Except.ok (Json.str i) := by
      simp [_obj_id, h]
    simp only [ShipApi.state_transitions]
    rw [hid]
    exact ShipApi.getJson_fst b "states/search"
      [("predicate", "ANY PreviousStates.identifier = '" ++ i ++ "'")] net

/-- C9 witness: the two mapping-argument parts applied at a concrete state
mapping whose identifier is s1. -/
theorem C9_state_transitions_predicate_witness :
    ([("identifier", Json.str "s1")].lookup "identifier" = some (Json.str "s1")) ∧
    (((Api.mk "20151105" "https://api.realartists.com" false "tok").state_transitions
        (Json.obj [("identifier", Json.str "s1")]) net200).fst =
      [⟨Verb.GET, "https://api.realartists.com" ++ "/api/" ++ "20151105" ++ "/" ++ "states/search",
        [("predicate", "ANY PreviousStates.identifier = '" ++ "s1" ++ "'")],
        [("Authorization", "tok")], none⟩]) :=
  ⟨rfl,
   (C9_state_transitions_predicate (Api.mk "20151105" "https://api.realartists.com" false "tok")
     (ShipApi.mk "20151105" "https://api.realartists.com" "tok") net200 "s1").2.1
     [("identifier", Json.str "s1")] rfl⟩

/-- C10: `component_parent(c)` issues one components search with predicate
`ANY children.identifier = 'id of c'` and, when the server answers with a
JSON array, returns its first element, or None when the array is empty
(rather than failing); shown for both classes against an oracle returning an
arbitrary array. -/
theorem C10_component_parent_first_or_none (a : Api) (b : ShipApi) (i : String)
    (xs : List Json) :
    (a.component_parent (Json.str i) (fun _ => ⟨200, some (Json.arr xs)⟩) =
      ([⟨Verb.GET, a.server ++ "/api/" ++ a.API_VERSION ++ "/" ++ "components/search",
         [("predicate", "ANY children.identifier = '" ++ i ++ "'")],
         [("Authorization", a.token)], none⟩],
       Except.ok xs.head?)) ∧
    (∀ fields : List (String × Json), fields.lookup "identifier" = some (Json.str i) →
      a.component_parent (Json.obj fields) (fun _ => ⟨200, some (Json.arr xs)⟩) =
        ([⟨Verb.GET, a.server ++ "/api/" ++ a.API_VERSION ++ "/" ++ "components/search",
           [("predicate", "ANY children.identifier = '" ++ i ++ "'")],
           [("Authorization", a.token)], none⟩],
         Except.ok xs.head?)) ∧
    (b.component_parent (Json.str i) (fun _ => ⟨200, some (Json.arr xs)⟩) =
      ([⟨Verb.GET, b.server ++ "/api/" ++ b.API_VERSION ++ "/" ++ "components/search",
         [("predicate", "ANY children.identifier = '" ++ i ++ "'")],
         [("Authorization", b.token)], none⟩],
       Except.ok xs.head?)) := by
  refine ⟨?_, fun fields h => ?_, ?_⟩
  · cases xs <;> rfl
  · have hid : _obj_id (Json.obj fields) = Except.ok (Json.str i) := by
      simp [_obj_id, h]
    simp only [Api.component_parent]
    rw [hid]
    cases xs <;> rfl
  · cases xs <;> rfl

/-- C10 witness: the mapping-argument part applied at a concrete component
mapping and a two-element result array. -/
theorem C10_component_parent_first_or_none_witness :
    ([("identifier", Json.str "c1")].lookup "identifier" = some (Json.str "c1")) ∧
    ((Api.mk "20151105" "https://api.realartists.com" false "tok").component_parent
        (Json.obj [("identifier", Json.str "c1")])
        (fun _ => ⟨200, some (Json.arr [Json.str "p1", Json.str "p2"])⟩) =
      ([⟨Verb.GET, "https://api.realartists.com" ++ "/api/" ++ "20151105" ++ "/" ++ "components/search",
         [("predicate", "ANY children.identifier = '" ++ "c1" ++ "'")],
         [("Authorization", "tok")], none⟩],
       Except.ok (some (Json.str "p1")))) :=
  ⟨rfl,
   (C10_component_parent_first_or_none (Api.mk "20151105" "https://api.realartists.com" false "tok")
     (ShipApi.mk "20151105" "https://api.realartists.com" "tok") "c1"
     [Json.str "p1", Json.str "p2"]).2.1 [("identifier", Json.str "c1")] rfl⟩

theorem char_toNat_lt (c : Char) : c.toNat < 1114112 := by
  rcases c.valid with h | ⟨h1, h2⟩
  · exact Nat.lt_trans h (by norm_num)
  · exact h2

theorem hexDigit_ne_slash : ∀ n < 16, hexDigit n ≠ '/' := by decide

theorem utf8Bytes_lt_256 (c : Char) : ∀ b ∈ utf8Bytes c, b < 256 := by
  intro b hb
  have hc : c.toNat < 1114112 := char_toNat_lt c
  unfold utf8Bytes at hb
  split_ifs at hb with h1 h2 h3 <;> simp at hb <;> omega

theorem mem_quoteChar_ne_slash (c x : Char) (hx : x ∈ quoteChar c) : x ≠ '/' := by
  unfold quoteChar at hx
  cases hs : alwaysSafe c with
  | true =>
    simp [hs] at hx
    subst hx
    intro hc
    subst hc
    exact absurd hs (by decide)
  | false =>
    simp only [hs, Bool.false_eq_true, if_false] at hx
    obtain ⟨l, hl, hxl⟩ := List.mem_flatten.mp hx
    obtain ⟨bb, hbb, rfl⟩ := List.mem_map.mp hl
    have hb := utf8Bytes_lt_256 c bb hbb
    simp [pctHex] at hxl
    rcases hxl with rfl | rfl | rfl
    · decide
    · exact hexDigit_ne_slash _ (by omega)
    · exact hexDigit_ne_slash _ (by omega)

theorem quote_no_slash (k : String) : (quote k).toList.all (fun c => c != '/') = true := by
  rw [List.all_eq_true]
  intro x hx
  have hx2 : x ∈ (k.toList.map quoteChar).flatten := hx
  obtain ⟨l, hl, hxl⟩ := List.mem_flatten.mp hx2
  obtain ⟨c, _, rfl⟩ := List.mem_map.mp hl
  simpa [bne_iff_ne] using mem_quoteChar_ne_slash c x hxl

/-- C8: keyword set and delete target the per-keyword sub-path
problems/id/keywords/quote(k) with the keyword percent-encoded with no safe
characters, so the encoded segment never contains a path delimiter; e.g. a
keyword with a slash and a space encodes to %2F and %20. -/
theorem C8_keyword_percent_encoding (v s tok : String) (i : Int) (k : String)
    (val : Option Json) (net : Net) :
    ((((Api.mk v s false tok).problem_keyword_set i k val) net).fst =
      [⟨Verb.PUT, s ++ "/api/" ++ v ++ "/" ++ ("problems/" ++ toString i ++ "/keywords/" ++ quote k),
        [], [("Authorization", tok), ("Content-Type", "application/json")], val⟩]) ∧
    ((((Api.mk v s false tok).problem_keyword_delete i k) net).fst =
      [⟨Verb.DELETE, s ++ "/api/" ++ v ++ "/" ++ ("problems/" ++ toString i ++ "/keywords/" ++ quote k),
        [], [("Authorization", tok)], none⟩]) ∧
    ((quote k).toList.all (fun c => c != '/') = true) ∧
    (quote "release/2 beta" = "release%2F2%20beta") :=
  ⟨(M.bind_fst_of_nil _ _ net (fun _ => rfl)).trans (put_fst v s tok _ val net),
   (M.bind_fst_of_nil _ _ net (fun _ => rfl)).trans (delete_fst v s tok _ none net),
   quote_no_slash k,
   by decide⟩

set_option maxRecDepth 100000 in
/-- C5: evaluation of the code at a concrete component argument. The scoped
predicate template contains one placeholder but is formatted with a
two-tuple, so `milestones_active`/`active_milestones` with a component raise
`TypeError: not all arguments converted during string formatting` and issue
no milestones request at all; the no-component branch does issue the planned
date-range search. -/
theorem C5_milestones_active_scoped_type_error :
    ((Api.mk "20151105" "https://api.realartists.com" false "tok").milestones_active
        (some (Json.obj [("identifier", Json.str "c1"), ("fullName", Json.str "Apps/Web")]))
        net200 =
      ([], Except.error (Err.typeError "not all arguments converted during string formatting"))) ∧
    ((ShipApi.mk "20151105" "https://api.realartists.com" "tok").active_milestones
        (some (Json.obj [("identifier", Json.str "c1"), ("fullName", Json.str "Apps/Web")]))
        net200 =
      ([], Except.error (Err.typeError "not all arguments converted during string formatting"))) ∧
    (((Api.mk "20151105" "https://api.realartists.com" false "tok").milestones_active none
        net200).fst =
      [⟨Verb.GET, "https://api.realartists.com" ++ "/api/" ++ "20151105" ++ "/" ++ "milestones/search",
        [("predicate", milestonesActivePredicate)], [("Authorization", "tok")], none⟩]) :=
  ⟨rfl, rfl, rfl⟩

/-- C3 counterexample: the problem search called with no predicate (and no
saved query) does not issue a GET to the base problems collection endpoint;
it issues no request at all and raises. -/
theorem C3_counterexample_problem_search_no_predicate :
    (Api.mk "20151105" "https://api.realartists.com" false "tok").problem_search none none
        net200 =
      ([], Except.error (Err.nameError "name 'Error' is not defined")) := rfl

/-- C3 (amended): users, components, milestones and states of both classes
fetch the base collection endpoint with no predicate and the search variant
with the predicate passed through unchanged; the problems search has no
no-predicate collection fetch (it requires a predicate or saved query and
raises otherwise), and with a predicate it GETs problems/search with exactly
that predicate. -/
theorem C3_list_endpoints_amended (a : Api) (b : ShipApi) (net : Net) :
    ((a.users none net).fst =
      [⟨Verb.GET, a.server ++ "/api/" ++ a.API_VERSION ++ "/" ++ "users", [],
        [("Authorization", a.token)], none⟩]) ∧
    (∀ p, (a.users (some p) net).fst =
      [⟨Verb.GET, a.server ++ "/api/" ++ a.API_VERSION ++ "/" ++ "users/search",
        [("predicate", p)], [("Authorization", a.token)], none⟩]) ∧
    ((a.components none net).fst =
      [⟨Verb.GET, a.server ++ "/api/" ++ a.API_VERSION ++ "/" ++ "components", [],
        [("Authorization", a.token)], none⟩]) ∧
    (∀ p, (a.components (some p) net).fst =
      [⟨Verb.GET, a.server ++ "/api/" ++ a.API_VERSION ++ "/" ++ "components/search",
        [("predicate", p)], [("Authorization", a.token)], none⟩]) ∧
    ((a.milestones none net).fst =
      [⟨Verb.GET, a.server ++ "/api/" ++ a.API_VERSION ++ "/" ++ "milestones", [],
        [("Authorization", a.token)], none⟩]) ∧
    (∀ p, (a.milestones (some p) net).fst =
      [⟨Verb.GET, a.server ++ "/api/" ++ a.API_VERSION ++ "/" ++ "milestones/search",
        [("predicate", p)], [("Authorization", a.token)], none⟩]) ∧
    ((a.states none net).fst =
      [⟨Verb.GET, a.server ++ "/api/" ++ a.API_VERSION ++ "/" ++ "states", [],
        [("Authorization", a.token)], none⟩]) ∧
    (∀ p, (a.states (some p) net).fst =
      [⟨Verb.GET, a.server ++ "/api/" ++ a.API_VERSION ++ "/" ++ "states/search",
        [("predicate", p)], [("Authorization", a.token)], none⟩]) ∧
    (∀ p, (a.problem_search (some p) none net).fst =
      [⟨Verb.GET, a.server ++ "/api/" ++ a.API_VERSION ++ "/" ++ "problems/search",
        [("predicate", p)], [("Authorization", a.token)], none⟩]) ∧
    ((a.problem_search none none net).fst = []) ∧
    ((b.users none net).fst =
      [⟨Verb.GET, b.server ++ "/api/" ++ b.API_VERSION ++ "/" ++ "users", [],
        [("Authorization", b.token)], none⟩]) ∧
    (∀ p, (b.users (some p) net).fst =
      [⟨Verb.GET, b.server ++ "/api/" ++ b.API_VERSION ++ "/" ++ "users/search",
        [("predicate", p)], [("Authorization", b.token)], none⟩]) ∧
    ((b.components none net).fst =
      [⟨Verb.GET, b.server ++ "/api/" ++ b.API_VERSION ++ "/" ++ "components", [],
        [("Authorization", b.token)], none⟩]) ∧
    (∀ p, (b.components (some p) net).fst =
      [⟨Verb.GET, b.server ++ "/api/" ++ b.API_VERSION ++ "/" ++ "components/search",
        [("predicate", p)], [("Authorization", b.token)], none⟩]) ∧
    ((b.milestones none net).fst =
      [⟨Verb.GET, b.server ++ "/api/" ++ b.API_VERSION ++ "/" ++ "milestones", [],
        [("Authorization", b.token)], none⟩]) ∧
    (∀ p, (b.milestones (some p) net).fst =
      [⟨Verb.GET, b.server ++ "/api/" ++ b.API_VERSION ++ "/" ++ "milestones/search",
        [("predicate", p)], [("Authorization", b.token)], none⟩]) ∧
    ((b.states none net).fst =
      [⟨Verb.GET, b.server ++ "/api/" ++ b.API_VERSION ++ "/" ++ "states", [],
        [("Authorization", b.token)], none⟩]) ∧
    (∀ p, (b.states (some p) net).fst =
      [⟨Verb.GET, b.server ++ "/api/" ++ b.API_VERSION ++ "/" ++ "states/search",
        [("predicate", p)], [("Authorization", b.token)], none⟩]) ∧
    (∀ p, (b.search (some p) none net).fst =
      [⟨Verb.GET, b.server ++ "/api/" ++ b.API_VERSION ++ "/" ++ "problems/search",
        [("predicate", p)], [("Authorization", b.token)], none⟩]) ∧
    ((b.search none none net).fst = []) :=
  ⟨Api.get_json_fst a "users" [] net,
   fun p => Api.get_json_fst a "users/search" [("predicate", p)] net,
   Api.get_json_fst a "components" [] net,
   fun p => Api.get_json_fst a "components/search" [("predicate", p)] net,
   Api.get_json_fst a "milestones" [] net,
   fun p => Api.get_json_fst a "milestones/search" [("predicate", p)] net,
   Api.get_json_fst a "states" [] net,
   fun p => Api.get_json_fst a "states/search" [("predicate", p)] net,
   fun p => Api.get_json_fst a "problems/search" [("predicate", p)] net,
   rfl,
   ShipApi.getJson_fst b "users" [] net,
   fun p => ShipApi.getJson_fst b "users/search" [("predicate", p)] net,
   ShipApi.getJson_fst b "components" [] net,
   fun p => ShipApi.getJson_fst b "components/search" [("predicate", p)] net,
   ShipApi.getJson_fst b "milestones" [] net,
   fun p => ShipApi.getJson_fst b "milestones/search" [("predicate", p)] net,
   ShipApi.getJson_fst b "states" [] net,
   fun p => ShipApi.getJson_fst b "states/search" [("predicate", p)] net,
   fun p => ShipApi.getJson_fst b "problems/search" [("predicate", p)] net,
   rfl⟩

/-- C2: with dry_run set, every mutating method (POST/PATCH/PUT/DELETE based)
issues no request and returns the empty stand-in result (empty mapping for
the JSON-returning ones, None for the rest), while every read-only GET-based
method still issues its one request normally. -/
theorem C2_dry_run_suppresses_mutations (v s tok : String) (net : Net) (i d : Int)
    (p u rel : Json) (t k c pr cc st : String) (val : Option Json) (html : Option String) :
    ((Api.mk v s true tok).problem_create p net = ([], Except.ok (Json.obj []))) ∧
    ((Api.mk v s true tok).problem_update i p net = ([], Except.ok (Json.obj []))) ∧
    ((Api.mk v s true tok).problem_keyword_set i k val net = ([], Except.ok ())) ∧
    ((Api.mk v s true tok).problem_keyword_delete i k net = ([], Except.ok ())) ∧
    ((Api.mk v s true tok).problem_relationship_add i t d net = ([], Except.ok ())) ∧
    ((Api.mk v s true tok).problem_relationship_delete i rel net = ([], Except.ok ())) ∧
    ((Api.mk v s true tok).problem_comments_append i c html net = ([], Except.ok ())) ∧
    ((Api.mk v s true tok).problem_watchers_add i u net = ([], Except.ok ())) ∧
    (((Api.mk v s true tok).users none net).fst =
      [⟨Verb.GET, s ++ "/api/" ++ v ++ "/" ++ "users", [], [("Authorization", tok)], none⟩]) ∧
    (((Api.mk v s true tok).users (some pr) net).fst =
      [⟨Verb.GET, s ++ "/api/" ++ v ++ "/" ++ "users/search", [("predicate", pr)],
        [("Authorization", tok)], none⟩]) ∧
    (((Api.mk v s true tok).components none net).fst =
      [⟨Verb.GET, s ++ "/api/" ++ v ++ "/" ++ "components", [], [("Authorization", tok)], none⟩]) ∧
    (((Api.mk v s true tok).components (some pr) net).fst =
      [⟨Verb.GET, s ++ "/api/" ++ v ++ "/" ++ "components/search", [("predicate", pr)],
        [("Authorization", tok)], none⟩]) ∧
    (((Api.mk v s true tok).classifications net).fst =
      [⟨Verb.GET, s ++ "/api/" ++ v ++ "/" ++ "classifications", [],
        [("Authorization", tok)], none⟩]) ∧
    (((Api.mk v s true tok).milestones none net).fst =
      [⟨Verb.GET, s ++ "/api/" ++ v ++ "/" ++ "milestones", [], [("Authorization", tok)], none⟩]) ∧
    (((Api.mk v s true tok).milestones (some pr) net).fst =
      [⟨Verb.GET, s ++ "/api/" ++ v ++ "/" ++ "milestones/search", [("predicate", pr)],
        [("Authorization", tok)], none⟩]) ∧
    (((Api.mk v s true tok).priorities net).fst =
      [⟨Verb.GET, s ++ "/api/" ++ v ++ "/" ++ "priorities", [], [("Authorization", tok)], none⟩]) ∧
    (((Api.mk v s true tok).states none net).fst =
      [⟨Verb.GET, s ++ "/api/" ++ v ++ "/" ++ "states", [], [("Authorization", tok)], none⟩]) ∧
    (((Api.mk v s true tok).states (some pr) net).fst =
      [⟨Verb.GET, s ++ "/api/" ++ v ++ "/" ++ "states/search", [("predicate", pr)],
        [("Authorization", tok)], none⟩]) ∧
    (((Api.mk v s true tok).problem i net).fst =
      [⟨Verb.GET, s ++ "/api/" ++ v ++ "/" ++ ("problems/" ++ toString i), [],
        [("Authorization", tok)], none⟩]) ∧
    (((Api.mk v s true tok).problem_search (some pr) none net).fst =
      [⟨Verb.GET, s ++ "/api/" ++ v ++ "/" ++ "problems/search", [("predicate", pr)],
        [("Authorization", tok)], none⟩]) ∧
    (((Api.mk v s true tok).problem_relationships i net).fst =
      [⟨Verb.GET, s ++ "/api/" ++ v ++ "/" ++ ("problems/" ++ toString i ++ "/relationships"),
        [], [("Authorization", tok)], none⟩]) ∧
    (((Api.mk v s true tok).problem_comments i net).fst =
      [⟨Verb.GET, s ++ "/api/" ++ v ++ "/" ++ ("problems/" ++ toString i ++ "/comments"),
        [], [("Authorization", tok)], none⟩]) ∧
    (((Api.mk v s true tok).problem_watchers i net).fst =
      [⟨Verb.GET, s ++ "/api/" ++ v ++ "/" ++ ("problems/" ++ toString i ++ "/watchers"),
        [], [("Authorization", tok)], none⟩]) ∧
    (((Api.mk v s true tok).me net).fst =
      [⟨Verb.GET, s ++ "/api/" ++ v ++ "/" ++ "users/search",
        [("predicate", "identifier == $ApiUser")], [("Authorization", tok)], none⟩]) ∧
    (((Api.mk v s true tok).users_active net).fst =
      [⟨Verb.GET, s ++ "/api/" ++ v ++ "/" ++ "users/search",
        [("predicate", "inactive == NO")], [("Authorization", tok)], none⟩]) ∧
    (((Api.mk v s true tok).states_initial net).fst =
      [⟨Verb.GET, s ++ "/api/" ++ v ++ "/" ++ "states/search",
        [("predicate", "Initial = YES")], [("Authorization", tok)], none⟩]) ∧
    (((Api.mk v s true tok).component_children (Json.str cc) net).fst =
      [⟨Verb.GET, s ++ "/api/" ++ v ++ "/" ++ "components/search",
        [("predicate", "parent.identifier = '" ++ cc ++ "'")], [("Authorization", tok)], none⟩]) ∧
    (((Api.mk v s true tok).state_transitions (Json.str st) net).fst =
      [⟨Verb.GET, s ++ "/api/" ++ v ++ "/" ++ "states/search",
        [("predicate", "ANY PreviousStates.identifier = '" ++ st ++ "'")],
        [("Authorization", tok)], none⟩]) :=
  ⟨rfl, rfl, rfl, rfl, rfl, rfl, rfl, rfl,
   Api.get_json_fst (Api.mk v s true tok) "users" [] net,
   Api.get_json_fst (Api.mk v s true tok) "users/search" [("predicate", pr)] net,
   Api.get_json_fst (Api.mk v s true tok) "components" [] net,
   Api.get_json_fst (Api.mk v s true tok) "components/search" [("predicate", pr)] net,
   Api.get_json_fst (Api.mk v s true tok) "classifications" [] net,
   Api.get_json_fst (Api.mk v s true tok) "milestones" [] net,
   Api.get_json_fst (Api.mk v s true tok) "milestones/search" [("predicate", pr)] net,
   Api.get_json_fst (Api.mk v s true tok) "priorities" [] net,
   Api.get_json_fst (Api.mk v s true tok) "states" [] net,
   Api.get_json_fst (Api.mk v s true tok) "states/search" [("predicate", pr)] net,
   Api.get_json_fst (Api.mk v s true tok) ("problems/" ++ toString i) [] net,
   Api.get_json_fst (Api.mk v s true tok) "problems/search" [("predicate", pr)] net,
   Api.get_json_fst (Api.mk v s true tok) ("problems/" ++ toString i ++ "/relationships") [] net,
   Api.get_json_fst (Api.mk v s true tok) ("problems/" ++ toString i ++ "/comments") [] net,
   Api.get_json_fst (Api.mk v s true tok) ("problems/" ++ toString i ++ "/watchers") [] net,
   Api.get_json_fst (Api.mk v s true tok) "users/search"
     [("predicate", "identifier == $ApiUser")] net,
   Api.get_json_fst (Api.mk v s true tok) "users/search"
     [("predicate", "inactive == NO")] net,
   Api.get_json_fst (Api.mk v s true tok) "states/search"
     [("predicate", "Initial = YES")] net,
   Api.get_json_fst (Api.mk v s true tok) "components/search"
     [("predicate", "parent.identifier = '" ++ cc ++ "'")] net,
   Api.get_json_fst (Api.mk v s true tok) "states/search"
     [("predicate", "ANY PreviousStates.identifier = '" ++ st ++ "'")] net⟩

/-- C1 counterexample: 304 is not a 2xx status, but `raise_for_status` raises
only for 400-599, so on a 304 response `problem_keyword_set` returns normally
(None) instead of propagating an error. -/
theorem C1_counterexample_304_returns_ok :
    ((net304 ⟨Verb.PUT, "u", [], [], none⟩).status = 304) ∧
    ((Api.mk "20151105" "https://api.realartists.com" false "tok").problem_keyword_set 1 "k"
        none net304 =
      ([⟨Verb.PUT, "https://api.realartists.com/api/20151105/problems/1/keywords/k", [],
         [("Authorization", "tok"), ("Content-Type", "application/json")], none⟩],
       Except.ok ())) :=
  ⟨rfl, rfl⟩

set_option maxRecDepth 100000 in
/-- C1 (amended): when the client is not in dry-run mode, every client method
of both classes propagates an error whenever the oracle answers every request
with a 4xx or 5xx status; statuses outside 400-599 (such as 304) are not
treated as HTTP errors by `raise_for_status`, so the original "every non-2xx
response" wording does not hold for them. -/
theorem C1_http_4xx5xx_always_error (v s tok : String) (net : Net)
    (h : ∀ req, 400 ≤ (net req).status ∧ (net req).status < 600) :
    (∀ p, isErr (((Api.mk v s false tok).users p) net).snd = true) ∧
    (isErr (((Api.mk v s false tok).me) net).snd = true) ∧
    (isErr (((Api.mk v s false tok).users_active) net).snd = true) ∧
    (∀ p, isErr (((Api.mk v s false tok).components p) net).snd = true) ∧
    (∀ c : Json, isErr (((Api.mk v s false tok).component_parent c) net).snd = true) ∧
    (∀ c : Json, isErr (((Api.mk v s false tok).component_children c) net).snd = true) ∧
    (isErr (((Api.mk v s false tok).classifications) net).snd = true) ∧
    (∀ p, isErr (((Api.mk v s false tok).milestones p) net).snd = true) ∧
    (∀ wc, isErr (((Api.mk v s false tok).milestones_active wc) net).snd = true) ∧
    (isErr (((Api.mk v s false tok).priorities) net).snd = true) ∧
    (∀ p, isErr (((Api.mk v s false tok).states p) net).snd = true) ∧
    (isErr (((Api.mk v s false tok).states_initial) net).snd = true) ∧
    (isErr (((Api.mk v s false tok).state_initial) net).snd = true) ∧
    (∀ c : Json, isErr (((Api.mk v s false tok).state_transitions c) net).snd = true) ∧
    (∀ i : Int, isErr (((Api.mk v s false tok).problem i) net).snd = true) ∧
    (∀ p q, isErr (((Api.mk v s false tok).problem_search p q) net).snd = true) ∧
    (∀ pj : Json, isErr (((Api.mk v s false tok).problem_create pj) net).snd = true) ∧
    (∀ (i : Int) (pj : Json), isErr (((Api.mk v s false tok).problem_update i pj) net).snd = true) ∧
    (∀ (i : Int) (k : String) (val : Option Json),
      isErr (((Api.mk v s false tok).problem_keyword_set i k val) net).snd = true) ∧
    (∀ (i : Int) (k : String),
      isErr (((Api.mk v s false tok).problem_keyword_delete i k) net).snd = true) ∧
    (∀ i : Int, isErr (((Api.mk v s false tok).problem_relationships i) net).snd = true) ∧
    (∀ (i : Int) (t : String) (d : Int),
      isErr (((Api.mk v s false tok).problem_relationship_add i t d) net).snd = true) ∧
    (∀ (i : Int) (rel : Json),
      isErr (((Api.mk v s false tok).problem_relationship_delete i rel) net).snd = true) ∧
    (∀ i : Int, isErr (((Api.mk v s false tok).problem_comments i) net).snd = true) ∧
    (∀ (i : Int) (cm : String) (html : Option String),
      isErr (((Api.mk v s false tok).problem_comments_append i cm html) net).snd = true) ∧
    (∀ i : Int, isErr (((Api.mk v s false tok).problem_watchers i) net).snd = true) ∧
    (∀ (i : Int) (u : Json),
      isErr (((Api.mk v s false tok).problem_watchers_add i u) net).snd = true) ∧
    (∀ p, isErr (((ShipApi.mk v s tok).users p) net).snd = true) ∧
    (isErr (((ShipApi.mk v s tok).me) net).snd = true) ∧
    (isErr (((ShipApi.mk v s tok).active_users) net).snd = true) ∧
    (∀ p, isErr (((ShipApi.mk v s tok).components p) net).snd = true) ∧
    (∀ c : Json, isErr (((ShipApi.mk v s tok).component_parent c) net).snd = true) ∧
    (∀ c : Json, isErr (((ShipApi.mk v s tok).component_children c) net).snd = true) ∧
    (isErr (((ShipApi.mk v s tok).classifications) net).snd = true) ∧
    (∀ p, isErr (((ShipApi.mk v s tok).milestones p) net).snd = true) ∧
    (∀ wc, isErr (((ShipApi.mk v s tok).active_milestones wc) net).snd = true) ∧
    (isErr (((ShipApi.mk v s tok).priorities) net).snd = true) ∧
    (∀ p, isErr (((ShipApi.mk v s tok).states p) net).snd = true) ∧
    (isErr (((ShipApi.mk v s tok).initial_states) net).snd = true) ∧
    (isErr (((ShipApi.mk v s tok).initial_state) net).snd = true) ∧
    (∀ c : Json, isErr (((ShipApi.mk v s tok).state_transitions c) net).snd = true) ∧
    (∀ i : Int, isErr (((ShipApi.mk v s tok).problem i) net).snd = true) ∧
    (∀ p q, isErr (((ShipApi.mk v s tok).search p q) net).snd = true) ∧
    (∀ pj : Json, isErr (((ShipApi.mk v s tok).create_problem pj) net).snd = true) := by
  refine ⟨fun p => ?_, ?_, ?_, fun p => ?_, fun c => ?_, fun c => ?_, ?_, fun p => ?_,
    fun wc => ?_, ?_, fun p => ?_, ?_, ?_, fun c => ?_, fun i => ?_, fun p q => ?_,
    fun pj => ?_, fun i pj => ?_, fun i k val => ?_, fun i k => ?_, fun i => ?_,
    fun i t d => ?_, fun i rel => ?_, fun i => ?_, fun i cm html => ?_, fun i => ?_,
    fun i u => ?_, fun p => ?_, ?_, ?_, fun p => ?_, fun c => ?_, fun c => ?_, ?_,
    fun p => ?_, fun wc => ?_, ?_, fun p => ?_, ?_, ?_, fun c => ?_, fun i => ?_,
    fun p q => ?_, fun pj => ?_⟩
  · cases p <;> exact isErr_bind _ _ net (isErr_get _ _ _ net h)
  · exact isErr_bind _ _ net (isErr_get _ _ _ net h)
  · exact isErr_bind _ _ net (isErr_get _ _ _ net h)
  · cases p <;> exact isErr_bind _ _ net (isErr_get _ _ _ net h)
  · exact isErr_bind2 _ _ net (fun oid =>
      isErr_bind _ _ net (isErr_bind _ _ net (isErr_get _ _ _ net h)))
  · exact isErr_bind2 _ _ net (fun oid => isErr_bind _ _ net (isErr_get _ _ _ net h))
  · exact isErr_bind _ _ net (isErr_get _ _ _ net h)
  · cases p <;> exact isErr_bind _ _ net (isErr_get _ _ _ net h)
  · cases wc with
    | none => exact isErr_bind _ _ net (isErr_get _ _ _ net h)
    | some wc0 => exact isErr_bind2 _ _ net (fun wc2 => isErr_bind2 _ _ net (fun oid =>
        isErr_bind2 _ _ net (fun fn => isErr_bind _ _ net rfl)))
  · exact isErr_bind _ _ net (isErr_get _ _ _ net h)
  · cases p <;> exact isErr_bind _ _ net (isErr_get _ _ _ net h)
  · exact isErr_bind _ _ net (isErr_get _ _ _ net h)
  · exact isErr_bind _ _ net (isErr_bind _ _ net (isErr_get _ _ _ net h))
  · exact isErr_bind2 _ _ net (fun oid => isErr_bind _ _ net (isErr_get _ _ _ net h))
  · exact isErr_bind _ _ net (isErr_get _ _ _ net h)
  · cases p with
    | some p2 => exact isErr_bind _ _ net (isErr_get _ _ _ net h)
    | none =>
      cases q with
      | some q2 => exact isErr_bind _ _ net (isErr_get _ _ _ net h)
      | none => exact rfl
  · exact isErr_bind _ _ net (isErr_post v s tok _ _ net h)
  · exact isErr_bind _ _ net (isErr_patch v s tok _ _ net h)
  · exact isErr_bind _ _ net (isErr_put v s tok _ _ net h)
  · exact isErr_bind _ _ net (isErr_delete v s tok _ _ net h)
  · exact isErr_bind _ _ net (isErr_get _ _ _ net h)
  · exact isErr_bind _ _ net (isErr_put v s tok _ _ net h)
  · exact isErr_bind _ _ net (isErr_delete v s tok _ _ net h)
  · exact isErr_bind _ _ net (isErr_get _ _ _ net h)
  · exact isErr_bind _ _ net (isErr_post v s tok _ _ net h)
  · exact isErr_bind _ _ net (isErr_get _ _ _ net h)
  · exact isErr_bind _ _ net (isErr_put v s tok _ _ net h)
  · cases p <;> exact isErr_getJson _ _ _ net h
  · exact isErr_getJson _ _ _ net h
  · exact isErr_getJson _ _ _ net h
  · cases p <;> exact isErr_getJson _ _ _ net h
  · exact isErr_bind2 _ _ net (fun oid => isErr_bind _ _ net (isErr_getJson _ _ _ net h))
  · exact isErr_bind2 _ _ net (fun oid => isErr_getJson _ _ _ net h)
  · exact isErr_getJson _ _ _ net h
  · cases p <;> exact isErr_getJson _ _ _ net h
  · cases wc with
    | none => exact isErr_getJson _ _ _ net h
    | some wc0 => exact isErr_bind2 _ _ net (fun wc2 => isErr_bind2 _ _ net (fun oid =>
        isErr_bind2 _ _ net (fun fn => isErr_bind _ _ net rfl)))
  · exact isErr_getJson _ _ _ net h
  · cases p <;> exact isErr_getJson _ _ _ net h
  · exact isErr_getJson _ _ _ net h
  · exact isErr_bind _ _ net (isErr_getJson _ _ _ net h)
  · exact isErr_bind2 _ _ net (fun oid => isErr_getJson _ _ _ net h)
  · exact isErr_getJson _ _ _ net h
  · cases p with
    | some p2 => exact isErr_getJson _ _ _ net h
    | none =>
      cases q with
      | some q2 => exact isErr_getJson _ _ _ net h
      | none => exact rfl
  · exact isErr_rfs_cont net h _ _

/-- C1 witness: the amended theorem applied at a concrete client and an
oracle that answers 500 to everything. -/
theorem C1_http_4xx5xx_always_error_witness :
    (∀ req, 400 ≤ (net500 req).status ∧ (net500 req).status < 600) ∧
    isErr (((Api.mk "20151105" "https://api.realartists.com" false "tok").users none)
      net500).snd = true :=
  ⟨fun req => ⟨(by decide : (400 : Nat) ≤ 500), (by decide : (500 : Nat) < 600)⟩,
   (C1_http_4xx5xx_always_error "20151105" "https://api.realartists.com" "tok" net500
     (fun req => ⟨(by decide : (400 : Nat) ≤ 500), (by decide : (500 : Nat) < 600)⟩)).1 none⟩
